import Mathlib

/-!
Shallow embedding of the rapidpro-python client library core
(`temba_client/utils.py`, `temba_client/serialization.py`,
`temba_client/clients.py`, `temba_client/base.py`) together with proofs
checking the natural-language specification against it.

Python values are modelled by the inductive `PyVal`; machine-level concerns
(interning, identity) are out of scope; `==` on values is structural, which
matches Python semantics for the scalar and container types involved.
-/

namespace Temba

/-- A timezone-aware Python `datetime` normalized to UTC. Aware datetimes
compare by instant in Python, so representing each instant by its UTC
field decomposition is faithful for equality. -/
structure DateTime where
  year : Nat
  month : Nat
  day : Nat
  hour : Nat
  minute : Nat
  second : Nat
  microsecond : Nat
deriving DecidableEq, Repr

/-- The universe of Python values the client core manipulates.
`obj` is a `TembaObject` instance, modelled by its attribute dictionary;
`dict` is a plain `dict` with string keys (insertion-ordered). -/
inductive PyVal where
  | none
  | bool (b : Bool)
  | int (n : Int)
  | str (s : String)
  | datetime (d : DateTime)
  | list (xs : List PyVal)
  | dict (kvs : List (String × PyVal))
  | obj (attrs : List (String × PyVal))

/-- Python truthiness (`if not value:` style tests). -/
def pyTruthy : PyVal → Bool
  | .none => false
  | .bool b => b
  | .int n => n != 0
  | .str s => s != ""
  | .datetime _ => true
  | .list [] => false
  | .list (_ :: _) => true
  | .dict [] => false
  | .dict (_ :: _) => true
  | .obj _ => true

/-- Lookup in a Python dict / attribute table (keys are unique in Python,
first match suffices). -/
def dictLookup (kvs : List (String × PyVal)) (k : String) : Option PyVal :=
  match kvs with
  | [] => Option.none
  | (k', v) :: rest => if k' = k then some v else dictLookup rest k

/-- `d[k] = v` on a Python dict: replace in place if the key exists,
append otherwise. -/
def dictInsert (kvs : List (String × PyVal)) (k : String) (v : PyVal) :
    List (String × PyVal) :=
  match kvs with
  | [] => [(k, v)]
  | (k', v') :: rest =>
      if k' = k then (k', v) :: rest else (k', v') :: dictInsert rest k v

-- ==========================================================================
-- temba_client/utils.py : parse_iso8601 / format_iso8601
-- ==========================================================================

/-- Numeric value of a decimal digit character. -/
def digitVal (c : Char) : Nat := c.toNat - 48

/-- Zero-padded fixed-width decimal rendering (CPython `strftime`
zero-pads `%Y`/`%m`/`%d`/`%H`/`%M`/`%S`/`%f`), most significant digit
first. -/
def padNum : Nat → Nat → List Char
  | 0, _ => []
  | w + 1, n => Char.ofNat (48 + n / 10 ^ w) :: padNum w (n % 10 ^ w)

/-- Read exactly `w` decimal digits (the `\d\d\d\d` regex CPython's
`_strptime` uses for `%Y`), accumulating their value. -/
def readFixed (w : Nat) (acc : Nat) (cs : List Char) : Option (Nat × List Char) :=
  match w, cs with
  | 0, cs => some (acc, cs)
  | _ + 1, [] => Option.none
  | w + 1, c :: cs =>
      if c.isDigit then readFixed w (acc * 10 + digitVal c) cs else Option.none

/-- Consume one expected literal character (the literal parts of a
`strptime` format string). -/
def expectChar (c : Char) : List Char → Option (List Char)
  | c' :: rest => if c' = c then some rest else Option.none
  | [] => Option.none

/-- CPython `_strptime` matches `%m %d %H %M %S` with a regex of the shape
"two-digit value in range | single digit in range": a two-digit prefix is
consumed when its value satisfies `valid2`, else a single digit satisfying
`valid1` (the following character then has to match the next literal). -/
def read2 (valid2 valid1 : Nat → Bool) (cs : List Char) : Option (Nat × List Char) :=
  match cs with
  | c1 :: c2 :: rest =>
      if c1.isDigit && c2.isDigit && valid2 (10 * digitVal c1 + digitVal c2) then
        some (10 * digitVal c1 + digitVal c2, rest)
      else if c1.isDigit && valid1 (digitVal c1) then
        some (digitVal c1, c2 :: rest)
      else Option.none
  | [c1] =>
      if c1.isDigit && valid1 (digitVal c1) then some (digitVal c1, [])
      else Option.none
  | [] => Option.none

/-- Greedily take at most `n` leading decimal digits. -/
def takeDigits : Nat → List Char → (List Char × List Char)
  | 0, cs => ([], cs)
  | _ + 1, [] => ([], [])
  | n + 1, c :: cs =>
      if c.isDigit then
        let (ds, r) := takeDigits n cs
        (c :: ds, r)
      else ([], c :: cs)

/-- Value of a digit string, most significant first. -/
def digitsToNat (ds : List Char) : Nat :=
  ds.foldl (fun a c => a * 10 + digitVal c) 0

/-- `%f`: one to six digits, right-padded with zeros to microseconds
(CPython: `int(value + "0" * (6 - len(value)))`). -/
def readFrac (cs : List Char) : Option (Nat × List Char) :=
  match takeDigits 6 cs with
  | ([], _) => Option.none
  | (ds, rest) => some (digitsToNat ds * 10 ^ (6 - ds.length), rest)

/-- Membership of a character in a string, Python's `'T' in value`. -/
def hasChar (c : Char) (cs : List Char) : Bool := cs.any (· == c)

/-- Gregorian leap year, as `datetime` uses. -/
def isLeapYear (y : Nat) : Bool :=
  y % 4 == 0 && (y % 100 != 0 || y % 400 == 0)

/-- Days in a month, as `datetime` validates. -/
def daysInMonth (y m : Nat) : Nat :=
  if m = 2 then (if isLeapYear y then 29 else 28)
  else if m = 4 ∨ m = 6 ∨ m = 9 ∨ m = 11 then 30
  else 31

/-- Final construction `datetime(...)` performed by `strptime`: rejects
out-of-range components (including day vs. length of month and leap
seconds, which the `%S` regex tolerates but the constructor refuses). -/
def mkValidDateTime (y mo d h mi s us : Nat) : Option DateTime :=
  if 1 ≤ y ∧ y ≤ 9999 ∧ 1 ≤ mo ∧ mo ≤ 12 ∧ 1 ≤ d ∧ d ≤ daysInMonth y mo ∧
      h ≤ 23 ∧ mi ≤ 59 ∧ s ≤ 59 ∧ us ≤ 999999 then
    some ⟨y, mo, d, h, mi, s, us⟩
  else Option.none

/-- `strptime` against `'%Y-%m-%d'`: exactly four digits for the year,
then month and day. Returns the components, not yet range-validated. -/
def parseDatePart (cs : List Char) : Option ((Nat × Nat × Nat) × List Char) := do
  let (y, cs) ← readFixed 4 0 cs
  let cs ← expectChar '-' cs
  let (mo, cs) ← read2 (fun n => decide (1 ≤ n ∧ n ≤ 12)) (fun n => decide (1 ≤ n ∧ n ≤ 9)) cs
  let cs ← expectChar '-' cs
  let (d, cs) ← read2 (fun n => decide (1 ≤ n ∧ n ≤ 31)) (fun n => decide (1 ≤ n ∧ n ≤ 9)) cs
  pure ((y, mo, d), cs)

/-- `strptime` of the `'%H:%M:%S'` part. -/
def parseTimePart (cs : List Char) : Option ((Nat × Nat × Nat) × List Char) := do
  let (h, cs) ← read2 (fun n => decide (n ≤ 23)) (fun n => decide (n ≤ 9)) cs
  let cs ← expectChar ':' cs
  let (mi, cs) ← read2 (fun n => decide (n ≤ 59)) (fun n => decide (n ≤ 9)) cs
  let cs ← expectChar ':' cs
  let (s, cs) ← read2 (fun n => decide (n ≤ 61)) (fun n => decide (n ≤ 9)) cs
  pure ((h, mi, s), cs)

/-- `datetime.strptime(value, fmt)` for the four datetime formats
`parse_iso8601` selects between: `'%Y-%m-%dT%H:%M:%S'` optionally extended
with `'.%f'` and/or a literal `'Z'`. `strptime` demands the whole string
be consumed ("unconverted data remains" otherwise). -/
def strptimeIso (hasFrac hasZ : Bool) (cs : List Char) : Option DateTime := do
  let ((y, mo, d), cs) ← parseDatePart cs
  let cs ← expectChar 'T' cs
  let ((h, mi, s), cs) ← parseTimePart cs
  let (us, cs) ←
    if hasFrac then do
      let cs ← expectChar '.' cs
      readFrac cs
    else pure (0, cs)
  let cs ← if hasZ then expectChar 'Z' cs else pure cs
  if cs = [] then mkValidDateTime y mo d h mi s us else Option.none

/-- `datetime.strptime(value, '%Y-%m-%d')` (the date-only branch). -/
def strptimeDateOnly (cs : List Char) : Option DateTime := do
  let ((y, mo, d), cs) ← parseDatePart cs
  if cs = [] then mkValidDateTime y mo d 0 0 0 0 else Option.none

/-- `parse_iso8601` on a non-empty string: pick the format from the
shape of the value (`'T' in value`, `'.' in value`, `'Z' in value`),
then `strptime` and attach UTC. -/
def parseIso8601Str (s : String) : Option DateTime :=
  let cs := s.toList
  if hasChar 'T' cs then
    strptimeIso (hasChar '.' cs) (hasChar 'Z' cs) cs
  else
    strptimeDateOnly cs

-- ==========================================================================
-- Error taxonomy (temba_client/exceptions.py, as used by the modelled code)
-- ==========================================================================

inductive TembaError where
  | serializationError (msg : String)
  | rateExceeded (retryAfter : Nat)
  | valueError (msg : String)
  | typeError (msg : String)
  | attributeError (msg : String)
deriving DecidableEq, Repr

/-- `six.text_type(value)`, i.e. `str()`, for the values that reach the
error-message format strings of the serialization layer. Containers are
rendered repr-style with single-quoted strings, matching CPython for the
values used in theorems below. -/
def pyStr : PyVal → String
  | .none => "None"
  | .bool b => if b then "True" else "False"
  | .int n => toString n
  | .str s => s
  | .datetime _ => "datetime"
  | .list _ => "list"
  | .dict _ => "dict"
  | .obj _ => "object"

/-- `parse_iso8601(value)`: falsy input (None, empty string, ...) gives
`None`; a non-empty string is parsed; a truthy non-string raises. -/
def parse_iso8601 (v : PyVal) : Except TembaError PyVal :=
  if pyTruthy v = false then .ok .none
  else
    match v with
    | .str s =>
        match parseIso8601Str s with
        | some d => .ok (.datetime d)
        | Option.none =>
            .error (.valueError ("time data " ++ s ++ " does not match format"))
    | _ => .error (.typeError "argument is not iterable")

/-- The character rendering of a datetime in the four ISO-8601 shapes
`parse_iso8601` distinguishes: `%Y-%m-%dT%H:%M:%S`, optionally followed by
`.%f` (six digits) and/or a literal `Z`, all numerals zero-padded. -/
def isoChars (d : DateTime) (withFrac withZ : Bool) : List Char :=
  padNum 4 d.year ++ '-' :: (padNum 2 d.month ++ '-' :: (padNum 2 d.day ++
    'T' :: (padNum 2 d.hour ++ ':' :: (padNum 2 d.minute ++ ':' ::
      (padNum 2 d.second ++
        ((if withFrac then '.' :: padNum 6 d.microsecond else []) ++
         (if withZ then ['Z'] else [])))))))

/-- The characters `value.astimezone(pytz.UTC).strftime('%Y-%m-%dT%H:%M:%S.%fZ')`
produces; in our model the value is already its UTC normal form. (CPython
zero-pads `%Y` to four digits; platform `strftime`s may not for years
below 1000, so theorems about this formatting assume `1000 ≤ year`.) -/
def formatIso8601Chars (d : DateTime) : List Char := isoChars d true true

def formatIso8601Str (d : DateTime) : String := ⟨formatIso8601Chars d⟩

/-- `format_iso8601(value)`: `None` maps to `None`; a datetime is formatted
in UTC with microseconds and a `'Z'` suffix; anything else has no
`astimezone` and raises. -/
def format_iso8601 (v : PyVal) : Except TembaError PyVal :=
  match v with
  | .none => .ok .none
  | .datetime d => .ok (.str (formatIso8601Str d))
  | _ => .error (.attributeError "object has no attribute astimezone")

-- ==========================================================================
-- temba_client/serialization.py
-- ==========================================================================

/-- The interface a nested `item_class` offers to `ObjectField` and friends:
its classmethod `deserialize` and its `serialize`. -/
structure ItemClass where
  deserializeItem : PyVal → Except TembaError PyVal
  serializeItem : PyVal → Except TembaError PyVal

/-- The concrete `TembaField` subclasses. -/
inductive FieldKind where
  | simple
  | boolean
  | integer
  | datetime
  | object (item : ItemClass)
  | objectList (item : ItemClass)
  | objectDict (item : ItemClass)

/-- A field descriptor: subclass plus the `TembaField.__init__(src, optional)`
state. -/
structure TembaField where
  kind : FieldKind
  src : Option String := Option.none
  optional : Bool := false

/-- `deserialize_list`: list comprehension over `deserialize`, first
failure propagates. -/
def deserializeListWith (item : ItemClass) : List PyVal → Except TembaError (List PyVal)
  | [] => .ok []
  | v :: rest => do
      let a ← item.deserializeItem v
      let r ← deserializeListWith item rest
      .ok (a :: r)

/-- The dict comprehension of `ObjectDictField.deserialize`. -/
def deserializeDictWith (item : ItemClass) :
    List (String × PyVal) → Except TembaError (List (String × PyVal))
  | [] => .ok []
  | (k, v) :: rest => do
      let a ← item.deserializeItem v
      let r ← deserializeDictWith item rest
      .ok ((k, a) :: r)

/-- The list comprehension of `ObjectListField.serialize`. -/
def serializeListWith (item : ItemClass) : List PyVal → Except TembaError (List PyVal)
  | [] => .ok []
  | v :: rest => do
      let a ← item.serializeItem v
      let r ← serializeListWith item rest
      .ok (a :: r)

/-- The dict comprehension of `ObjectDictField.serialize`. -/
def serializeDictWith (item : ItemClass) :
    List (String × PyVal) → Except TembaError (List (String × PyVal))
  | [] => .ok []
  | (k, v) :: rest => do
      let a ← item.serializeItem v
      let r ← serializeDictWith item rest
      .ok ((k, a) :: r)

/-- `SimpleField.deserialize`: passthrough. -/
def SimpleField.deserialize (v : PyVal) : Except TembaError PyVal := .ok v

/-- `SimpleField.serialize`: passthrough (also inherited by
`BooleanField` and `IntegerField`). -/
def SimpleField.serialize (v : PyVal) : Except TembaError PyVal := .ok v

/-- `BooleanField.deserialize`: a non-null non-bool raises. -/
def BooleanField.deserialize (v : PyVal) : Except TembaError PyVal :=
  match v with
  | .none => .ok .none
  | .bool b => .ok (.bool b)
  | _ => .error (.serializationError ("Value '" ++ pyStr v ++ "' field is not an boolean"))

/-- `IntegerField.deserialize`: `type(value) not in six.integer_types` is
an exact type check, so a non-null value whose exact type is not `int`
(booleans included) raises. -/
def IntegerField.deserialize (v : PyVal) : Except TembaError PyVal :=
  match v with
  | .none => .ok .none
  | .int n => .ok (.int n)
  | _ => .error (.serializationError ("Value '" ++ pyStr v ++ "' field is not an integer"))

/-- `ObjectField.deserialize`: null maps to null, otherwise delegate to
the item class. -/
def ObjectField.deserialize (item : ItemClass) (v : PyVal) : Except TembaError PyVal :=
  match v with
  | .none => .ok .none
  | _ => item.deserializeItem v

/-- `ObjectField.serialize`: null maps to null, otherwise delegate. -/
def ObjectField.serialize (item : ItemClass) (v : PyVal) : Except TembaError PyVal :=
  match v with
  | .none => .ok .none
  | _ => item.serializeItem v

/-- `ObjectListField.deserialize`: anything but a list (null included)
raises. -/
def ObjectListField.deserialize (item : ItemClass) (v : PyVal) : Except TembaError PyVal :=
  match v with
  | .list xs => (deserializeListWith item xs).map .list
  | _ => .error (.serializationError ("Value '" ++ pyStr v ++ "' field is not a list"))

/-- `ObjectListField.serialize`: anything but a list (null included)
raises. -/
def ObjectListField.serialize (item : ItemClass) (v : PyVal) : Except TembaError PyVal :=
  match v with
  | .list xs => (serializeListWith item xs).map .list
  | _ => .error (.serializationError ("Value '" ++ pyStr v ++ "' field is not a list"))

/-- `ObjectDictField.deserialize`: anything but a dict (null included)
raises. -/
def ObjectDictField.deserialize (item : ItemClass) (v : PyVal) : Except TembaError PyVal :=
  match v with
  | .dict kvs => (deserializeDictWith item kvs).map .dict
  | _ => .error (.serializationError ("Value '" ++ pyStr v ++ "' field is not a dict"))

/-- `ObjectDictField.serialize`: anything but a dict (null included)
raises. -/
def ObjectDictField.serialize (item : ItemClass) (v : PyVal) : Except TembaError PyVal :=
  match v with
  | .dict kvs => (serializeDictWith item kvs).map .dict
  | _ => .error (.serializationError ("Value '" ++ pyStr v ++ "' field is not a dict"))

/-- Dynamic dispatch of `field.deserialize(value)` over the subclasses. -/
def fieldDeserialize (f : TembaField) (v : PyVal) : Except TembaError PyVal :=
  match f.kind with
  | .simple => SimpleField.deserialize v
  | .boolean => BooleanField.deserialize v
  | .integer => IntegerField.deserialize v
  | .datetime => parse_iso8601 v
  | .object item => ObjectField.deserialize item v
  | .objectList item => ObjectListField.deserialize item v
  | .objectDict item => ObjectDictField.deserialize item v

/-- Dynamic dispatch of `field.serialize(value)`: `BooleanField` and
`IntegerField` inherit `SimpleField.serialize` (no check on the way out);
`DatetimeField` delegates to `format_iso8601`. -/
def fieldSerialize (f : TembaField) (v : PyVal) : Except TembaError PyVal :=
  match f.kind with
  | .simple => SimpleField.serialize v
  | .boolean => SimpleField.serialize v
  | .integer => SimpleField.serialize v
  | .datetime => format_iso8601 v
  | .object item => ObjectField.serialize item v
  | .objectList item => ObjectListField.serialize item v
  | .objectDict item => ObjectDictField.serialize item v

/-- `field.src if field.src else attr_name` (Python truthiness: an empty
`src` string also falls back to the attribute name). -/
def fieldSource (f : TembaField) (attrName : String) : String :=
  match f.src with
  | some s => if s ≠ "" then s else attrName
  | Option.none => attrName

/-- The loop body of `TembaObject.deserialize`: for each declared field,
raise if its wire key is absent and the field is not optional, else pass
`item.get(key)` (null when absent) through the field's own deserialize. -/
def deserializeFields (clsName : String) :
    List (String × TembaField) → List (String × PyVal) →
    Except TembaError (List (String × PyVal))
  | [], _ => .ok []
  | (attrName, f) :: rest, item =>
      let source := fieldSource f attrName
      if (dictLookup item source).isNone ∧ f.optional = false then
        .error (.serializationError ("Serialized " ++ clsName ++
          " item is missing field '" ++ source ++ "'"))
      else do
        let attrValue ← fieldDeserialize f ((dictLookup item source).getD .none)
        let restAttrs ← deserializeFields clsName rest item
        .ok ((attrName, attrValue) :: restAttrs)

/-- `TembaObject.deserialize(item)` for a class `clsName` declaring
`fields`. A non-mapping `item` fails in the `in`/`get` protocol. -/
def TembaObject.deserialize (clsName : String) (fields : List (String × TembaField))
    (item : PyVal) : Except TembaError PyVal :=
  match item with
  | .dict kvs => (deserializeFields clsName fields kvs).map .obj
  | _ => .error (.typeError "argument is not a mapping")

/-- `getattr(self, attr_name, None)` on an instance modelled by its
attribute table (any other value has none of the attributes). -/
def attrsOf : PyVal → List (String × PyVal)
  | .obj attrs => attrs
  | _ => []

/-- The loop body of `TembaObject.serialize`: each declared field's value
(defaulting to null) through the field's serialize, stored under the wire
key. -/
def serializeFields :
    List (String × TembaField) → List (String × PyVal) →
    Except TembaError (List (String × PyVal))
  | [], _ => .ok []
  | (attrName, f) :: rest, attrs => do
      let fieldValue ← fieldSerialize f ((dictLookup attrs attrName).getD .none)
      let r ← serializeFields rest attrs
      .ok ((fieldSource f attrName, fieldValue) :: r)

/-- `TembaObject.serialize()` for a class declaring `fields`. -/
def TembaObject.serialize (fields : List (String × TembaField)) (inst : PyVal) :
    Except TembaError PyVal :=
  (serializeFields fields (attrsOf inst)).map .dict

/-- The `ItemClass` view of a concrete `TembaObject` subclass. -/
def classItem (clsName : String) (fields : List (String × TembaField)) : ItemClass :=
  ⟨TembaObject.deserialize clsName fields, TembaObject.serialize fields⟩

-- ==========================================================================
-- temba_client/clients.py and temba_client/base.py : clients
-- ==========================================================================

/-- Python `s.startswith(pre)`. -/
def strStartsWith (s pre : String) : Bool := pre.data.isPrefixOf s.data

/-- Python `s.endswith(suf)`. -/
def strEndsWith (s suf : String) : Bool := suf.data.isSuffixOf s.data

/-- Python `s[:-1]`. -/
def strDropLast (s : String) : String := ⟨s.data.dropLast⟩

/-- `BaseClient.__init__` root-URL derivation (clients.py): trim one
trailing slash from a full URL or prefix `https://`, then always append
`/api/v<N>`. -/
def BaseClient.rootUrl (host : String) (apiVersion : Nat) : String :=
  let hostUrl :=
    if strStartsWith host "http" then
      (if strEndsWith host "/" then strDropLast host else host)
    else "https://" ++ host
  hostUrl ++ "/api/v" ++ toString apiVersion

/-- `AbstractTembaClient.__init__` root-URL derivation (base.py, the v1
client): a full URL is kept as given up to one trailing slash; a bare
host becomes `https://<host>/api/v1`. -/
def AbstractTembaClient.rootUrl (host : String) : String :=
  if strStartsWith host "http" then
    (if strEndsWith host "/" then strDropLast host else host)
  else "https://" ++ host ++ "/api/v1"

mutual
/-- `BaseClient._serialize_value`: lists/tuples elementwise; a
`TembaObject` resolves via `uuid` then `id` then `key` (`hasattr` order,
implicitly `None` when none of them exists); datetimes format to ISO-8601;
booleans to 1/0; everything else passes through. -/
def serializeValue : PyVal → PyVal
  | .list xs => .list (serializeValueList xs)
  | .obj attrs =>
      match dictLookup attrs "uuid" with
      | some u => u
      | Option.none =>
          match dictLookup attrs "id" with
          | some i => i
          | Option.none =>
              match dictLookup attrs "key" with
              | some k => k
              | Option.none => .none
  | .datetime d => .str (formatIso8601Str d)
  | .bool b => .int (if b then 1 else 0)
  | .none => .none
  | .int n => .int n
  | .str s => .str s
  | .dict kvs => .dict kvs

def serializeValueList : List PyVal → List PyVal
  | [] => []
  | v :: rest => serializeValue v :: serializeValueList rest
end

/-- `BaseClient._build_params`: drop kwargs whose value is `None`,
serialize the rest. -/
def buildParams : List (String × PyVal) → List (String × PyVal)
  | [] => []
  | (_, .none) :: rest => buildParams rest
  | (k, v) :: rest => (k, serializeValue v) :: buildParams rest

/-- One page of a paging (style A) response envelope; `next` is `none`
when the JSON value is null or the key is absent (`response.get("next",
None)`). -/
structure PageResponse where
  results : List PyVal
  next : Option String

/-- A request the engine issued: target URL and query parameters. -/
structure FetchRequest where
  url : String
  params : List (String × PyVal)

/-- The `while url:` loop of `BasePagingClient._get_all`, driven by the
successive server responses: request the current URL, append the page's
`results`, continue with the returned `next` URL (parameters cleared)
while it is truthy. The caller enters with the endpoint URL, which is
never empty. -/
def getAllLoop : List PageResponse → String → List (String × PyVal) →
    List FetchRequest × List PyVal
  | [], _, _ => ([], [])
  | page :: laterPages, url, params =>
      let req : FetchRequest := ⟨url, params⟩
      match page.next with
      | some nextUrl =>
          if nextUrl ≠ "" then
            let (reqs, res) := getAllLoop laterPages nextUrl []
            (req :: reqs, page.results ++ res)
          else ([req], page.results)
      | Option.none => ([req], page.results)

/-- `BasePagingClient._get_all(endpoint, params)` against a server that
answers the successive requests with `pages`, starting from the endpoint
URL; returns the issued requests and the accumulated results. -/
def getAll (pages : List PageResponse) (endpointUrl : String)
    (params : List (String × PyVal)) : List FetchRequest × List PyVal :=
  getAllLoop pages endpointUrl params

/-- `CursorQuery` state: the endpoint URL, query params and item class. -/
structure CursorQuery where
  url : String
  params : List (String × PyVal)
  clazz : ItemClass

/-- `CursorIterator` state. -/
structure CursorIterator where
  url : Option String
  params : List (String × PyVal)
  clazz : ItemClass
  retryOnRateExceed : Bool
  resumeCursor : Option String

/-- One cursor (style B) response envelope. -/
structure CursorResponse where
  next : Option String
  results : List PyVal

/-- `CursorQuery.iterfetches(retry_on_rate_exceed, resume_cursor)`. -/
def CursorQuery.iterfetches (q : CursorQuery) (retryOnRateExceed : Bool)
    (resumeCursor : Option String) : CursorIterator :=
  ⟨some q.url, q.params, q.clazz, retryOnRateExceed, resumeCursor⟩

/-- Outcome of one `CursorIterator.__next__` call: `stop` is the
StopIteration raised before any request (no URL left); `step` records the
request issued, the deserialized batch (`.ok []` means StopIteration is
raised after the request, the state having already advanced) and the
iterator's state afterwards. -/
inductive CursorStepResult where
  | stop
  | step (req : FetchRequest) (batch : Except TembaError (List PyVal))
      (it : CursorIterator)

/-- `CursorIterator.__next__` against the server response `resp`: a falsy
URL stops; otherwise a truthy resume cursor is written into the params as
`cursor` (and only then), the request is issued, and the state becomes
(`next` URL from the response, empty params, no resume cursor). -/
def CursorIterator.next (it : CursorIterator) (resp : CursorResponse) :
    CursorStepResult :=
  match it.url with
  | Option.none => .stop
  | some u =>
      if u = "" then .stop
      else
        let ps :=
          match it.resumeCursor with
          | some c => if c ≠ "" then dictInsert it.params "cursor" (.str c) else it.params
          | Option.none => it.params
        .step ⟨u, ps⟩ (deserializeListWith it.clazz resp.results)
          ⟨resp.next, [], it.clazz, it.retryOnRateExceed, Option.none⟩

/-- clients.py line 20. -/
def MAX_RETRIES : Nat := 5

/-- What one underlying `BaseClient._request` attempt does: succeed, or
raise Rate Exceeded carrying the server's retry-after value. -/
inductive AttemptResult (α : Type) where
  | ok (v : α)
  | rateExceeded (retryAfter : Nat)

/-- Observable outcome of the (possibly retrying) request wrapper: the
value returned together with the sleeps performed, or the Rate Exceeded
error propagated together with the sleeps performed. `noResponse` is the
artefact of running out of scripted attempts and is never reached in the
theorems below. -/
inductive RetryResult (α : Type) where
  | success (v : α) (sleeps : List Nat)
  | raised (retryAfter : Nat) (sleeps : List Nat)
  | noResponse

/-- `int(retry_after) if retry_after else 0`: the retry-after value the
429 handler stores on the error when the header is present / absent. -/
def retryAfterOf (header : Option Nat) : Nat :=
  match header with
  | some n => n
  | Option.none => 0

/-- The `while True` loop of
`BaseCursorClient._request_wth_rate_limit_retry`, driven by the scripted
attempt outcomes: on Rate Exceeded, increment `retries`; sleep
`ex.retry_after` and retry only while `retries < MAX_RETRIES` and the
retry-after value is truthy (nonzero); otherwise re-raise. -/
def retryLoop {α : Type} : List (AttemptResult α) → Nat → RetryResult α
  | [], _ => .noResponse
  | .ok v :: _, _ => .success v []
  | .rateExceeded ra :: rest, retries =>
      let retries' := retries + 1
      if retries' < MAX_RETRIES ∧ ra ≠ 0 then
        match retryLoop rest retries' with
        | .success v sleeps => .success v (ra :: sleeps)
        | .raised r sleeps => .raised r (ra :: sleeps)
        | .noResponse => .noResponse
      else .raised ra []

/-- `BaseCursorClient._request(..., retry_on_rate_exceed)`: with the flag
the retrying wrapper (retries counter starting at 0), without it a single
plain attempt. -/
def cursorClientRequest {α : Type} (retryOnRateExceed : Bool)
    (attempts : List (AttemptResult α)) : RetryResult α :=
  if retryOnRateExceed then retryLoop attempts 0
  else
    match attempts with
    | [] => .noResponse
    | .ok v :: _ => .success v []
    | .rateExceeded ra :: _ => .raised ra []

/-- The field kinds whose `deserialize` maps null to null (all but the
list/dict container fields). -/
def kindNullPassthrough : FieldKind → Bool
  | .simple => true
  | .boolean => true
  | .integer => true
  | .datetime => true
  | .object _ => true
  | .objectList _ => false
  | .objectDict _ => false

/-- The `TestSubType` fixture type of the repository's tests: a single
simple field `zed`. -/
def testSubTypeFields : List (String × TembaField) := [("zed", { kind := .simple })]

def testSubType : ItemClass := classItem "TestSubType" testSubTypeFields

/-- Python-validity of a datetime value (what `datetime(...)` accepts). -/
def validDateTime (d : DateTime) : Prop :=
  1 ≤ d.year ∧ d.year ≤ 9999 ∧ 1 ≤ d.month ∧ d.month ≤ 12 ∧
    1 ≤ d.day ∧ d.day ≤ daysInMonth d.year d.month ∧
    d.hour ≤ 23 ∧ d.minute ≤ 59 ∧ d.second ≤ 59 ∧ d.microsecond ≤ 999999

instance (d : DateTime) : Decidable (validDateTime d) := by
  unfold validDateTime
  infer_instance

-- ==========================================================================
-- Theorems
-- ==========================================================================

theorem digitChar_isDigit {k : Nat} (hk : k < 10) :
    (Char.ofNat (48 + k)).isDigit = true := by
  interval_cases k <;> decide

theorem digitVal_digitChar {k : Nat} (hk : k < 10) :
    digitVal (Char.ofNat (48 + k)) = k := by
  interval_cases k <;> decide

theorem readFixed_padNum (w : Nat) :
    ∀ (n acc : Nat) (rest : List Char), n < 10 ^ w →
      readFixed w acc (padNum w n ++ rest) = some (acc * 10 ^ w + n, rest) := by
  induction w with
  | zero =>
      intro n acc rest hn
      interval_cases n
      simp [padNum, readFixed]
  | succ w ih =>
      intro n acc rest hn
      have hpos : 0 < 10 ^ w := Nat.pos_pow_of_pos w (by norm_num)
      have hdiv : n / 10 ^ w < 10 := by
        apply Nat.div_lt_of_lt_mul
        calc n < 10 ^ (w + 1) := hn
          _ = 10 ^ w * 10 := by rw [pow_succ]
      have hmod : n % 10 ^ w < 10 ^ w := Nat.mod_lt _ hpos
      have hstep : padNum (w + 1) n ++ rest =
          Char.ofNat (48 + n / 10 ^ w) :: (padNum w (n % 10 ^ w) ++ rest) := by
        simp [padNum]
      rw [hstep]
      simp only [readFixed, digitChar_isDigit hdiv, if_true,
        digitVal_digitChar hdiv]
      rw [ih _ _ _ hmod]
      have hsplit := Nat.div_add_mod n (10 ^ w)
      have harith : (acc * 10 + n / 10 ^ w) * 10 ^ w + n % 10 ^ w =
          acc * 10 ^ (w + 1) + n := by
        calc (acc * 10 + n / 10 ^ w) * 10 ^ w + n % 10 ^ w
            = acc * (10 ^ w * 10) + (10 ^ w * (n / 10 ^ w) + n % 10 ^ w) := by ring
          _ = acc * (10 ^ w * 10) + n := by rw [hsplit]
          _ = acc * 10 ^ (w + 1) + n := by rw [pow_succ]
      rw [harith]

theorem padNum_length (w : Nat) : ∀ n : Nat, (padNum w n).length = w := by
  induction w with
  | zero => intro n; rfl
  | succ w ih => intro n; simp [padNum, ih]

theorem takeDigits_padNum (w : Nat) :
    ∀ (n : Nat) (rest : List Char), n < 10 ^ w →
      takeDigits w (padNum w n ++ rest) = (padNum w n, rest) := by
  induction w with
  | zero => intro n rest hn; simp [padNum, takeDigits]
  | succ w ih =>
      intro n rest hn
      have hdiv : n / 10 ^ w < 10 := by
        apply Nat.div_lt_of_lt_mul
        calc n < 10 ^ (w + 1) := hn
          _ = 10 ^ w * 10 := by rw [pow_succ]
      have hmod : n % 10 ^ w < 10 ^ w :=
        Nat.mod_lt _ (Nat.pos_pow_of_pos w (by norm_num))
      simp only [padNum, List.cons_append, takeDigits, digitChar_isDigit hdiv,
        if_true, List.append_eq, ih _ _ hmod]

theorem foldl_padNum (w : Nat) :
    ∀ (n a : Nat), n < 10 ^ w →
      (padNum w n).foldl (fun acc c => acc * 10 + digitVal c) a = a * 10 ^ w + n := by
  induction w with
  | zero =>
      intro n a hn
      interval_cases n
      simp [padNum]
  | succ w ih =>
      intro n a hn
      have hdiv : n / 10 ^ w < 10 := by
        apply Nat.div_lt_of_lt_mul
        calc n < 10 ^ (w + 1) := hn
          _ = 10 ^ w * 10 := by rw [pow_succ]
      have hmod : n % 10 ^ w < 10 ^ w :=
        Nat.mod_lt _ (Nat.pos_pow_of_pos w (by norm_num))
      simp only [padNum, List.foldl_cons, digitVal_digitChar hdiv]
      rw [ih _ _ hmod]
      have hsplit := Nat.div_add_mod n (10 ^ w)
      calc (a * 10 + n / 10 ^ w) * 10 ^ w + n % 10 ^ w
          = a * (10 ^ w * 10) + (10 ^ w * (n / 10 ^ w) + n % 10 ^ w) := by ring
        _ = a * (10 ^ w * 10) + n := by rw [hsplit]
        _ = a * 10 ^ (w + 1) + n := by rw [pow_succ]

theorem readFrac_padNum (us : Nat) (rest : List Char) (h : us < 1000000) :
    readFrac (padNum 6 us ++ rest) = some (us, rest) := by
  have hpow : (10 : Nat) ^ 6 = 1000000 := by norm_num
  have h6 : us < 10 ^ 6 := by omega
  have hlen := padNum_length 6 us
  have hfold := foldl_padNum 6 us 0 h6
  simp only [readFrac, takeDigits_padNum 6 us rest h6]
  cases hp : padNum 6 us with
  | nil => rw [hp] at hlen; simp at hlen
  | cons c cs =>
      rw [hp] at hlen hfold
      simp only [digitsToNat, hlen, hfold]
      norm_num

theorem read2_padNum (valid2 valid1 : Nat → Bool) (v : Nat) (rest : List Char)
    (hv : v < 100) (h2 : valid2 v = true) :
    read2 valid2 valid1 (padNum 2 v ++ rest) = some (v, rest) := by
  have hd1 : v / 10 < 10 := by omega
  have hd2 : v % 10 < 10 := by omega
  have hshape : padNum 2 v ++ rest =
      Char.ofNat (48 + v / 10) :: Char.ofNat (48 + v % 10) :: rest := by
    have e1 : (10 : Nat) ^ 1 = 10 := by norm_num
    have e0 : (10 : Nat) ^ 0 = 1 := by norm_num
    simp [padNum, e1, e0, Nat.div_one]
  rw [hshape]
  have hrecomp : 10 * (v / 10) + v % 10 = v := by omega
  simp only [read2, digitChar_isDigit hd1, digitChar_isDigit hd2,
    digitVal_digitChar hd1, digitVal_digitChar hd2, Bool.true_and, hrecomp, h2,
    if_true]

theorem read2_month (mo : Nat) (rest : List Char) (h1 : 1 ≤ mo) (h2 : mo ≤ 12) :
    read2 (fun n => decide (1 ≤ n ∧ n ≤ 12)) (fun n => decide (1 ≤ n ∧ n ≤ 9))
      (padNum 2 mo ++ rest) = some (mo, rest) :=
  read2_padNum _ _ _ _ (by omega) (by simp [h1, h2])

theorem read2_day (dd : Nat) (rest : List Char) (h1 : 1 ≤ dd) (h2 : dd ≤ 31) :
    read2 (fun n => decide (1 ≤ n ∧ n ≤ 31)) (fun n => decide (1 ≤ n ∧ n ≤ 9))
      (padNum 2 dd ++ rest) = some (dd, rest) :=
  read2_padNum _ _ _ _ (by omega) (by simp [h1, h2])

theorem read2_hour (h : Nat) (rest : List Char) (h2 : h ≤ 23) :
    read2 (fun n => decide (n ≤ 23)) (fun n => decide (n ≤ 9))
      (padNum 2 h ++ rest) = some (h, rest) :=
  read2_padNum _ _ _ _ (by omega) (by simp [h2])

theorem read2_minute (mi : Nat) (rest : List Char) (h2 : mi ≤ 59) :
    read2 (fun n => decide (n ≤ 59)) (fun n => decide (n ≤ 9))
      (padNum 2 mi ++ rest) = some (mi, rest) :=
  read2_padNum _ _ _ _ (by omega) (by simp [h2])

theorem read2_second (s : Nat) (rest : List Char) (h2 : s ≤ 59) :
    read2 (fun n => decide (n ≤ 61)) (fun n => decide (n ≤ 9))
      (padNum 2 s ++ rest) = some (s, rest) :=
  read2_padNum _ _ _ _ (by omega) (by simp only [decide_eq_true_eq]; omega)

theorem parseDatePart_padded (y mo dd : Nat) (rest : List Char)
    (hy : y < 10000) (hmo1 : 1 ≤ mo) (hmo2 : mo ≤ 12) (hd1 : 1 ≤ dd) (hd2 : dd ≤ 31) :
    parseDatePart (padNum 4 y ++ '-' :: (padNum 2 mo ++ '-' :: (padNum 2 dd ++ rest))) =
      some ((y, mo, dd), rest) := by
  have hpow : (10 : Nat) ^ 4 = 10000 := by norm_num
  have h4 : y < 10 ^ 4 := by omega
  simp only [parseDatePart, bind, readFixed_padNum 4 y 0 _ h4, zero_mul, zero_add,
    Option.bind, expectChar, read2_month mo _ hmo1 hmo2, read2_day dd _ hd1 hd2,
    reduceIte]
  rfl

theorem parseTimePart_padded (h mi s : Nat) (rest : List Char)
    (hh : h ≤ 23) (hmi : mi ≤ 59) (hs : s ≤ 59) :
    parseTimePart (padNum 2 h ++ ':' :: (padNum 2 mi ++ ':' :: (padNum 2 s ++ rest))) =
      some ((h, mi, s), rest) := by
  simp only [parseTimePart, bind, Option.bind, expectChar, read2_hour h _ hh,
    read2_minute mi _ hmi, read2_second s _ hs, reduceIte]
  rfl

theorem daysInMonth_le (y m : Nat) : daysInMonth y m ≤ 31 := by
  unfold daysInMonth
  split_ifs <;> omega

theorem hasChar_append (c : Char) (xs ys : List Char) :
    hasChar c (xs ++ ys) = (hasChar c xs || hasChar c ys) := by
  simp [hasChar]

theorem hasChar_cons (c x : Char) (xs : List Char) :
    hasChar c (x :: xs) = ((x == c) || hasChar c xs) := by
  simp [hasChar]

theorem hasChar_nil (c : Char) : hasChar c [] = false := rfl

theorem hasChar_padNum (c : Char) (hc : c.isDigit = false) (w : Nat) :
    ∀ n : Nat, n < 10 ^ w → hasChar c (padNum w n) = false := by
  induction w with
  | zero => intro n hn; rfl
  | succ w ih =>
      intro n hn
      have hdiv : n / 10 ^ w < 10 := by
        apply Nat.div_lt_of_lt_mul
        calc n < 10 ^ (w + 1) := hn
          _ = 10 ^ w * 10 := by rw [pow_succ]
      have hmod : n % 10 ^ w < 10 ^ w :=
        Nat.mod_lt _ (Nat.pos_pow_of_pos w (by norm_num))
      have hne : (Char.ofNat (48 + n / 10 ^ w) == c) = false := by
        apply beq_eq_false_iff_ne.mpr
        intro he
        rw [← he, digitChar_isDigit hdiv] at hc
        exact Bool.noConfusion hc
      simp only [padNum, hasChar_cons, hne, Bool.false_or, ih _ hmod]

/-- The bounds `validDateTime` puts on each rendered component. -/
theorem validDateTime_bounds (d : DateTime) (hv : validDateTime d) :
    d.year < 10 ^ 4 ∧ d.month < 10 ^ 2 ∧ d.day < 10 ^ 2 ∧ d.hour < 10 ^ 2 ∧
      d.minute < 10 ^ 2 ∧ d.second < 10 ^ 2 ∧ d.microsecond < 10 ^ 6 := by
  obtain ⟨h1, h2, h3, h4, h5, h6, h7, h8, h9, h10⟩ := hv
  have hd31 : d.day ≤ 31 := le_trans h6 (daysInMonth_le d.year d.month)
  have e4 : (10 : Nat) ^ 4 = 10000 := by norm_num
  have e2 : (10 : Nat) ^ 2 = 100 := by norm_num
  have e6 : (10 : Nat) ^ 6 = 1000000 := by norm_num
  omega

theorem strptimeIso_isoChars (d : DateTime) (wF wZ : Bool)
    (hv : validDateTime d) (hf : wF = false → d.microsecond = 0) :
    strptimeIso wF wZ (isoChars d wF wZ) = some d := by
  obtain ⟨y, mo, dd, h, mi, s, us⟩ := d
  simp only [validDateTime] at hv
  obtain ⟨h1, h2, h3, h4, h5, h6, h7, h8, h9, h10⟩ := hv
  have hy : y < 10000 := by omega
  have hdd31 : dd ≤ 31 := le_trans h6 (daysInMonth_le y mo)
  have hus : us < 1000000 := by omega
  have hcond : 1 ≤ y ∧ y ≤ 9999 ∧ 1 ≤ mo ∧ mo ≤ 12 ∧ 1 ≤ dd ∧
      dd ≤ daysInMonth y mo ∧ h ≤ 23 ∧ mi ≤ 59 ∧ s ≤ 59 ∧ us ≤ 999999 :=
    ⟨h1, h2, h3, h4, h5, h6, h7, h8, h9, h10⟩
  cases wF with
  | true =>
      cases wZ with
      | true =>
          simp only [isoChars, reduceIte, strptimeIso, bind, Option.bind,
            parseDatePart_padded y mo dd _ hy h3 h4 h5 hdd31, expectChar,
            parseTimePart_padded h mi s _ h7 h8 h9, List.cons_append,
            readFrac_padNum us _ hus]
          simp [mkValidDateTime, h1, h2, h3, h4, h5, h6, h7, h8, h9, h10]
      | false =>
          simp only [isoChars, reduceIte, List.append_nil, strptimeIso, bind,
            Option.bind, parseDatePart_padded y mo dd _ hy h3 h4 h5 hdd31,
            expectChar, parseTimePart_padded h mi s _ h7 h8 h9, List.cons_append,
            readFrac_padNum us _ hus]
          simp [mkValidDateTime, h1, h2, h3, h4, h5, h6, h7, h8, h9, h10]
  | false =>
      have hus0 : us = 0 := hf rfl
      subst hus0
      cases wZ with
      | true =>
          simp only [isoChars, reduceIte, List.nil_append, strptimeIso, bind,
            Option.bind, parseDatePart_padded y mo dd _ hy h3 h4 h5 hdd31,
            expectChar, parseTimePart_padded h mi s _ h7 h8 h9]
          simp [mkValidDateTime, h1, h2, h3, h4, h5, h6, h7, h8, h9]
      | false =>
          simp only [isoChars, reduceIte, List.nil_append, List.append_nil,
            strptimeIso, bind, Option.bind,
            parseDatePart_padded y mo dd _ hy h3 h4 h5 hdd31, expectChar,
            parseTimePart_padded h mi s _ h7 h8 h9]
          simp [mkValidDateTime, h1, h2, h3, h4, h5, h6, h7, h8, h9]

theorem isoChars_ne_nil (d : DateTime) (wF wZ : Bool) : isoChars d wF wZ ≠ [] := by
  intro hcon
  have hlen := congrArg List.length hcon
  simp [isoChars, padNum_length] at hlen

theorem hasChar_isoChars_T (d : DateTime) (wF wZ : Bool) :
    hasChar 'T' (isoChars d wF wZ) = true := by
  simp [isoChars, hasChar_append, hasChar_cons]

theorem hasChar_isoChars_dot (d : DateTime) (hv : validDateTime d) (wF wZ : Bool) :
    hasChar '.' (isoChars d wF wZ) = wF := by
  obtain ⟨hb1, hb2, hb3, hb4, hb5, hb6, hb7⟩ := validDateTime_bounds d hv
  have hnd : ('.' : Char).isDigit = false := by decide
  cases wF <;> cases wZ <;>
    simp [isoChars, hasChar_append, hasChar_cons, hasChar_nil,
      hasChar_padNum '.' hnd 4 _ hb1, hasChar_padNum '.' hnd 2 _ hb2,
      hasChar_padNum '.' hnd 2 _ hb3, hasChar_padNum '.' hnd 2 _ hb4,
      hasChar_padNum '.' hnd 2 _ hb5, hasChar_padNum '.' hnd 2 _ hb6,
      hasChar_padNum '.' hnd 6 _ hb7]

theorem hasChar_isoChars_Z (d : DateTime) (hv : validDateTime d) (wF wZ : Bool) :
    hasChar 'Z' (isoChars d wF wZ) = wZ := by
  obtain ⟨hb1, hb2, hb3, hb4, hb5, hb6, hb7⟩ := validDateTime_bounds d hv
  have hnd : ('Z' : Char).isDigit = false := by decide
  cases wF <;> cases wZ <;>
    simp [isoChars, hasChar_append, hasChar_cons, hasChar_nil,
      hasChar_padNum 'Z' hnd 4 _ hb1, hasChar_padNum 'Z' hnd 2 _ hb2,
      hasChar_padNum 'Z' hnd 2 _ hb3, hasChar_padNum 'Z' hnd 2 _ hb4,
      hasChar_padNum 'Z' hnd 2 _ hb5, hasChar_padNum 'Z' hnd 2 _ hb6,
      hasChar_padNum 'Z' hnd 6 _ hb7]

theorem parseIso8601Str_isoChars (d : DateTime) (wF wZ : Bool) (hv : validDateTime d)
    (hf : wF = false → d.microsecond = 0) :
    parseIso8601Str ⟨isoChars d wF wZ⟩ = some d := by
  have hT := hasChar_isoChars_T d wF wZ
  have hdot := hasChar_isoChars_dot d hv wF wZ
  have hZ := hasChar_isoChars_Z d hv wF wZ
  have hlist : (String.mk (isoChars d wF wZ)).toList = isoChars d wF wZ := rfl
  simp only [parseIso8601Str, hlist, hT, hdot, hZ, if_true]
  exact strptimeIso_isoChars d wF wZ hv hf

theorem parse_iso8601_isoChars (d : DateTime) (wF wZ : Bool) (hv : validDateTime d)
    (hf : wF = false → d.microsecond = 0) :
    parse_iso8601 (.str ⟨isoChars d wF wZ⟩) = .ok (.datetime d) := by
  have htr : pyTruthy (.str ⟨isoChars d wF wZ⟩) = true := by
    simp only [pyTruthy, bne_iff_ne, ne_eq]
    intro hcon
    exact isoChars_ne_nil d wF wZ (congrArg String.data hcon)
  simp only [parse_iso8601, htr, Bool.true_eq_false, reduceIte,
    parseIso8601Str_isoChars d wF wZ hv hf]

-- ==========================================================================
-- C1 : root-URL derivation
-- ==========================================================================

/-- C1, counterexample: in `BaseClient.__init__` (clients.py) a full-URL
host does NOT merely get its trailing slash trimmed — `/api/v<N>` is then
appended — so host `"http://example.com/api/v1/"` with API version 1
yields `"http://example.com/api/v1/api/v1"`, not the claimed
`"http://example.com/api/v1"`. -/
theorem c1_root_url_counterexample :
    BaseClient.rootUrl "http://example.com/api/v1/" 1 = "http://example.com/api/v1/api/v1" ∧
    BaseClient.rootUrl "http://example.com/api/v1/" 1 ≠ "http://example.com/api/v1" := by
  constructor
  · decide
  · decide

/-- C1, amended: only `AbstractTembaClient.__init__` (base.py, the v1
client, version fixed at 1) treats a full-URL host as the root URL with a
single trailing slash trimmed, scheme preserved and nothing appended;
`BaseClient.__init__` (clients.py) appends `/api/v<N>` to the normalized
host in every case. A bare host yields `https://<host>/api/v<N>` in both. -/
theorem c1_root_url_amended (host : String) (n : Nat) :
    (strStartsWith host "http" = false →
      BaseClient.rootUrl host n = "https://" ++ host ++ "/api/v" ++ toString n ∧
      AbstractTembaClient.rootUrl host = "https://" ++ host ++ "/api/v1") ∧
    (strStartsWith host "http" = true → strEndsWith host "/" = false →
      AbstractTembaClient.rootUrl host = host ∧
      BaseClient.rootUrl host n = host ++ "/api/v" ++ toString n) ∧
    (strStartsWith host "http" = true → strEndsWith host "/" = true →
      AbstractTembaClient.rootUrl host = strDropLast host ∧
      BaseClient.rootUrl host n = strDropLast host ++ "/api/v" ++ toString n) ∧
    AbstractTembaClient.rootUrl "http://example.com/api/v1/" = "http://example.com/api/v1" := by
  refine ⟨fun h => ?_, fun h h2 => ?_, fun h h2 => ?_, by decide⟩
  · exact ⟨by simp [BaseClient.rootUrl, h], by simp [AbstractTembaClient.rootUrl, h]⟩
  · exact ⟨by simp [AbstractTembaClient.rootUrl, h, h2], by simp [BaseClient.rootUrl, h, h2]⟩
  · exact ⟨by simp [AbstractTembaClient.rootUrl, h, h2], by simp [BaseClient.rootUrl, h, h2]⟩

/-- C1, witness: the amended statement applied to the concrete hosts
`"example.com"` (bare) and `"http://example.com"` (full URL, no slash). -/
theorem c1_root_url_amended_witness :
    BaseClient.rootUrl "example.com" 2 = "https://example.com/api/v2" ∧
    BaseClient.rootUrl "http://example.com" 2 = "http://example.com/api/v2" := by
  constructor
  · have h := (c1_root_url_amended "example.com" 2).1 (by decide)
    rw [h.1]
    decide
  · have h := (c1_root_url_amended "http://example.com" 2).2.1 (by decide) (by decide)
    rw [h.2]
    decide

-- ==========================================================================
-- C2 : rate-limit retry policy
-- ==========================================================================

/-- C2, counterexample: a 429 whose retry-after header is unspecified
carries retry-after 0, and then `_request_wth_rate_limit_retry` re-raises
immediately — no sleep of 0 seconds, no retry of the identical request —
even though `retry_on_rate_exceed=True` and the next attempt would have
succeeded. -/
theorem c2_rate_retry_counterexample :
    cursorClientRequest true
      [AttemptResult.rateExceeded (retryAfterOf Option.none), AttemptResult.ok (42 : Nat)] =
      RetryResult.raised 0 [] := rfl

/-- C2, amended: with `retry_on_rate_exceed=false`, Rate Exceeded is
raised on the first attempt with no sleep and no retry. With the flag set,
the client sleeps the server-specified retry-after duration and retries
the identical request only when that duration is nonzero, up to a fixed
maximum of 5 attempts in total, after which the error propagates; when the
header is unspecified (retry-after 0) the error propagates immediately
without sleeping or retrying. -/
theorem c2_rate_retry_amended (α : Type) (v : α) (ra : Nat) (rest : List (AttemptResult α)) :
    (cursorClientRequest false (.rateExceeded ra :: rest) = .raised ra []) ∧
    (cursorClientRequest true (.ok v :: rest) = .success v []) ∧
    (ra ≠ 0 → cursorClientRequest true (.rateExceeded ra :: .ok v :: rest) = .success v [ra]) ∧
    (ra ≠ 0 → cursorClientRequest true (List.replicate MAX_RETRIES (.rateExceeded ra) ++ rest) =
      .raised ra (List.replicate (MAX_RETRIES - 1) ra)) ∧
    (cursorClientRequest true (.rateExceeded 0 :: rest) = .raised 0 []) := by
  refine ⟨rfl, rfl, fun h => ?_, fun h => ?_, ?_⟩
  · simp [cursorClientRequest, retryLoop, MAX_RETRIES, h]
  · simp [cursorClientRequest, MAX_RETRIES, List.replicate, retryLoop, h]
  · simp [cursorClientRequest, retryLoop, MAX_RETRIES]

/-- C2, witness: the amended statement at retry-after 1, a success value
7, and an empty remainder of the attempt script. -/
theorem c2_rate_retry_amended_witness :
    cursorClientRequest true [AttemptResult.rateExceeded 1, AttemptResult.ok (7 : Nat)] =
      RetryResult.success 7 [1] ∧
    cursorClientRequest true
      (List.replicate MAX_RETRIES (AttemptResult.rateExceeded 1) ++ ([] : List (AttemptResult Nat))) =
      RetryResult.raised 1 (List.replicate (MAX_RETRIES - 1) 1) :=
  ⟨(c2_rate_retry_amended Nat 7 1 []).2.2.1 (by decide),
   (c2_rate_retry_amended Nat 7 1 []).2.2.2.1 (by decide)⟩

-- ==========================================================================
-- C3 : null handling per field variant
-- ==========================================================================

/-- C3, counterexample: `ObjectListField` raises a Serialization error on
a null input, for `deserialize` and for `serialize` alike (`None` is not a
list), contradicting "serialize(None) returns None and deserialize(None)
returns None ... for every field-descriptor variant". -/
theorem c3_null_counterexample :
    fieldDeserialize { kind := .objectList testSubType } .none =
      .error (.serializationError "Value 'None' field is not a list") ∧
    fieldSerialize { kind := .objectList testSubType } .none =
      .error (.serializationError "Value 'None' field is not a list") :=
  ⟨rfl, rfl⟩

/-- C3, amended: for the Simple, Boolean, Integer, Datetime and Object
variants, `serialize(None)` and `deserialize(None)` both return `None`
without raising; the ObjectList and ObjectDict variants instead raise a
Serialization error on null input in both directions. -/
theorem c3_null_handling_amended (src : Option String) (opt : Bool) (item : ItemClass) :
    (fieldDeserialize ⟨.simple, src, opt⟩ .none = .ok .none) ∧
    (fieldSerialize ⟨.simple, src, opt⟩ .none = .ok .none) ∧
    (fieldDeserialize ⟨.boolean, src, opt⟩ .none = .ok .none) ∧
    (fieldSerialize ⟨.boolean, src, opt⟩ .none = .ok .none) ∧
    (fieldDeserialize ⟨.integer, src, opt⟩ .none = .ok .none) ∧
    (fieldSerialize ⟨.integer, src, opt⟩ .none = .ok .none) ∧
    (fieldDeserialize ⟨.datetime, src, opt⟩ .none = .ok .none) ∧
    (fieldSerialize ⟨.datetime, src, opt⟩ .none = .ok .none) ∧
    (fieldDeserialize ⟨.object item, src, opt⟩ .none = .ok .none) ∧
    (fieldSerialize ⟨.object item, src, opt⟩ .none = .ok .none) ∧
    (fieldDeserialize ⟨.objectList item, src, opt⟩ .none =
      .error (.serializationError "Value 'None' field is not a list")) ∧
    (fieldSerialize ⟨.objectList item, src, opt⟩ .none =
      .error (.serializationError "Value 'None' field is not a list")) ∧
    (fieldDeserialize ⟨.objectDict item, src, opt⟩ .none =
      .error (.serializationError "Value 'None' field is not a dict")) ∧
    (fieldSerialize ⟨.objectDict item, src, opt⟩ .none =
      .error (.serializationError "Value 'None' field is not a dict")) :=
  ⟨rfl, rfl, rfl, rfl, rfl, rfl, rfl, rfl, rfl, rfl, rfl, rfl, rfl, rfl⟩

-- ==========================================================================
-- C6 : missing vs optional fields in TembaObject.deserialize
-- ==========================================================================

/-- C6, counterexample: for a typed-object type declaring one OPTIONAL
ObjectList field, `deserialize({})` does not return an instance with the
attribute null — the absent value (null) passes into the field's own
`deserialize`, which raises a Serialization error. -/
theorem c6_optional_counterexample :
    TembaObject.deserialize "TestType"
      [("hum", { kind := .objectList testSubType, optional := true })] (.dict []) =
      .error (.serializationError "Value 'None' field is not a list") := rfl

/-- C6, amended: `T.deserialize({})` raises a Serialization error naming
the missing wire key when the declared field is not optional; when it is
optional, the absent value (null) is passed through the field's own
deserialize, which yields an instance whose attribute is null for the
variants whose deserialize maps null to null (Simple, Boolean, Integer,
Datetime, Object) and raises a Serialization error for ObjectList and for
ObjectDict. -/
theorem c6_missing_vs_optional_amended (clsName attrName : String) (f : TembaField) :
    (f.optional = false →
      TembaObject.deserialize clsName [(attrName, f)] (.dict []) =
        .error (.serializationError ("Serialized " ++ clsName ++
          " item is missing field '" ++ fieldSource f attrName ++ "'"))) ∧
    (f.optional = true → kindNullPassthrough f.kind = true →
      TembaObject.deserialize clsName [(attrName, f)] (.dict []) =
        .ok (.obj [(attrName, .none)])) ∧
    (f.optional = true → ∀ item, f.kind = .objectList item →
      TembaObject.deserialize clsName [(attrName, f)] (.dict []) =
        .error (.serializationError "Value 'None' field is not a list")) ∧
    (f.optional = true → ∀ item, f.kind = .objectDict item →
      TembaObject.deserialize clsName [(attrName, f)] (.dict []) =
        .error (.serializationError "Value 'None' field is not a dict")) := by
  refine ⟨fun h => ?_, fun h hk => ?_, fun h item hk => ?_, fun h item hk => ?_⟩
  · simp [TembaObject.deserialize, deserializeFields, dictLookup, h, Except.map]
  · cases hf : f.kind <;>
      simp_all [TembaObject.deserialize, deserializeFields, dictLookup, h,
        fieldDeserialize, kindNullPassthrough, parse_iso8601, pyTruthy,
        SimpleField.deserialize, BooleanField.deserialize, IntegerField.deserialize,
        ObjectField.deserialize, Except.map, Except.bind, bind]
  · simp [TembaObject.deserialize, deserializeFields, dictLookup, h, hk,
      fieldDeserialize, ObjectListField.deserialize, pyStr, Except.map,
      Except.bind, bind]
  · simp [TembaObject.deserialize, deserializeFields, dictLookup, h, hk,
      fieldDeserialize, ObjectDictField.deserialize, pyStr, Except.map,
      Except.bind, bind]

/-- C6, witness: the amended statement at the test fixture type: a
required simple field `foo` missing from `{}` raises naming `foo`; an
optional simple field deserializes `{}` to an instance with the attribute
null; an optional ObjectDict field absent from `{}` raises the "not a
dict" Serialization error. -/
theorem c6_missing_vs_optional_amended_witness :
    TembaObject.deserialize "TestType" [("foo", { kind := .simple })] (.dict []) =
      .error (.serializationError "Serialized TestType item is missing field 'foo'") ∧
    TembaObject.deserialize "TestType" [("foo", { kind := .simple, optional := true })] (.dict []) =
      .ok (.obj [("foo", .none)]) ∧
    TembaObject.deserialize "TestType"
      [("hum", { kind := .objectDict testSubType, optional := true })] (.dict []) =
      .error (.serializationError "Value 'None' field is not a dict") := by
  refine ⟨?_, ?_, ?_⟩
  · have h := (c6_missing_vs_optional_amended "TestType" "foo" { kind := .simple }).1 rfl
    simpa [fieldSource] using h
  · exact (c6_missing_vs_optional_amended "TestType" "foo"
      { kind := .simple, optional := true }).2.1 rfl rfl
  · exact (c6_missing_vs_optional_amended "TestType" "hum"
      { kind := .objectDict testSubType, optional := true }).2.2.2 rfl testSubType rfl

-- ==========================================================================
-- C7 : resume cursor is injected once
-- ==========================================================================

/-- C7, counterexample: `__next__` guards the injection with
`if self.resume_cursor:` — Python truthiness — so the non-null resume
cursor `""` is NOT injected into the first fetch request (its params stay
empty), contradicting the claim for every non-null cursor. -/
theorem c7_resume_cursor_counterexample :
    CursorIterator.next
      (CursorQuery.iterfetches ⟨"https://example.com/api/v2/runs.json", [], testSubType⟩
        false (some ""))
      ⟨some "https://example.com/api/v2/runs.json?cursor=abc", [.dict [("zed", .str "b")]]⟩ =
      .step ⟨"https://example.com/api/v2/runs.json", []⟩
        (.ok [.obj [("zed", .str "b")]])
        ⟨some "https://example.com/api/v2/runs.json?cursor=abc", [], testSubType, false,
          Option.none⟩ := rfl

/-- C7, amended: for a cursor iteration started with a non-null,
non-empty resume cursor `c`, `cursor=c` is written into the params of only
the first fetch request, after which the resume cursor is cleared and the
params emptied; the subsequent fetch goes to the server-supplied `next`
URL verbatim with no parameters and no re-injected cursor. -/
theorem c7_resume_cursor_amended (q : CursorQuery) (retry : Bool) (c : String)
    (hc : c ≠ "") (hq : q.url ≠ "") (resp1 resp2 : CursorResponse) (nurl : String)
    (h1 : resp1.next = some nurl) (h2 : nurl ≠ "") :
    CursorIterator.next (q.iterfetches retry (some c)) resp1 =
      .step ⟨q.url, dictInsert q.params "cursor" (.str c)⟩
        (deserializeListWith q.clazz resp1.results)
        ⟨resp1.next, [], q.clazz, retry, Option.none⟩ ∧
    CursorIterator.next ⟨resp1.next, [], q.clazz, retry, Option.none⟩ resp2 =
      .step ⟨nurl, []⟩ (deserializeListWith q.clazz resp2.results)
        ⟨resp2.next, [], q.clazz, retry, Option.none⟩ := by
  constructor
  · simp [CursorQuery.iterfetches, CursorIterator.next, hq, hc]
  · simp [CursorIterator.next, h1, h2]

/-- C7, witness: the amended statement at a concrete query, cursor
`"qwERty="` and a two-fetch scripted server. -/
theorem c7_resume_cursor_amended_witness :
    CursorIterator.next
      (CursorQuery.iterfetches ⟨"https://example.com/api/v2/runs.json", [], testSubType⟩
        true (some "qwERty="))
      ⟨some "https://example.com/api/v2/runs.json?cursor=abc", []⟩ =
      .step ⟨"https://example.com/api/v2/runs.json", [("cursor", .str "qwERty=")]⟩
        (.ok []) ⟨some "https://example.com/api/v2/runs.json?cursor=abc", [],
          testSubType, true, Option.none⟩ ∧
    CursorIterator.next
      ⟨some "https://example.com/api/v2/runs.json?cursor=abc", [], testSubType, true,
        Option.none⟩ ⟨Option.none, []⟩ =
      .step ⟨"https://example.com/api/v2/runs.json?cursor=abc", []⟩
        (.ok []) ⟨Option.none, [], testSubType, true, Option.none⟩ := by
  have h := c7_resume_cursor_amended
    ⟨"https://example.com/api/v2/runs.json", [], testSubType⟩ true "qwERty="
    (by decide) (by decide)
    ⟨some "https://example.com/api/v2/runs.json?cursor=abc", []⟩ ⟨Option.none, []⟩
    "https://example.com/api/v2/runs.json?cursor=abc" rfl (by decide)
  exact ⟨h.1, h.2⟩

-- ==========================================================================
-- C8 : non-paged multi-page walk
-- ==========================================================================

/-- C8: `_get_all` issues exactly one request per page — the first to the
endpoint URL with the given params, each later one to the server-returned
`next` URL verbatim with no parameters — stops once `next` is null or
absent, and returns the in-order concatenation of every page's `results`
array. -/
theorem c8_pagination (pages : List PageResponse) (nexts : List String)
    (last : PageResponse) (url0 : String) (params : List (String × PyVal))
    (hnexts : pages.map PageResponse.next = nexts.map some)
    (hne : ∀ u ∈ nexts, u ≠ "") (hlast : last.next = Option.none) :
    getAll (pages ++ [last]) url0 params =
      (FetchRequest.mk url0 params ::
         nexts.map (fun u => FetchRequest.mk u []),
       (pages.map PageResponse.results).flatten ++ last.results) := by
  induction pages generalizing nexts url0 params with
  | nil =>
      have hn : nexts = [] := by cases nexts <;> simp_all
      subst hn
      simp [getAll, getAllLoop, hlast]
  | cons p ps ih =>
      cases nexts with
      | nil => simp at hnexts
      | cons u us =>
          simp only [List.map_cons, List.cons.injEq] at hnexts
          have hp : p.next = some u := hnexts.1
          have hus : ps.map PageResponse.next = us.map some := hnexts.2
          have hu : u ≠ "" := hne u (List.mem_cons_self u us)
          have ihh := ih us u [] hus (fun x hx => hne x (List.mem_cons_of_mem _ hx))
          simp only [getAll] at ihh
          simp only [List.cons_append, getAll, getAllLoop, hp, hu, ne_eq,
            not_false_eq_true, if_true, List.map_cons, List.flatten_cons,
            List.append_assoc]
          have hfold : ps.append [last] = ps ++ [last] := rfl
          rw [hfold, ihh]

/-- C8, witness: the 3-page walk of the claim — pages 1 and 2 return
non-null `next`, page 3 returns null — issues exactly 3 requests (the
endpoint URL, then the two `next` URLs, parameters cleared) and yields the
concatenation of the three results arrays. -/
theorem c8_pagination_witness :
    getAll [⟨[.int 1], some "u2"⟩, ⟨[.int 2], some "u3"⟩, ⟨[.int 3], Option.none⟩]
      "u1" [] =
      ([⟨"u1", []⟩, ⟨"u2", []⟩, ⟨"u3", []⟩], [.int 1, .int 2, .int 3]) := by
  have h := c8_pagination [⟨[.int 1], some "u2"⟩, ⟨[.int 2], some "u3"⟩] ["u2", "u3"]
    ⟨[.int 3], Option.none⟩ "u1" [] rfl
    (by intro u hu; simp at hu; rcases hu with h | h <;> subst h <;> decide) rfl
  simpa using h

-- ==========================================================================
-- C9 : identifier resolution in build_params
-- ==========================================================================

/-- C9: `_serialize_value` resolves a `TembaObject` to its identifying
attribute in priority order `uuid`, then `id`, then `key` (the first
attribute the object exposes wins, its bare value being returned), applies
the same resolution elementwise inside list arguments, and
`_build_params(contact=<object with uuid "X">)` yields `{"contact": "X"}`. -/
theorem c9_identifier_resolution (attrs : List (String × PyVal)) (u i k : PyVal)
    (xs : List PyVal) :
    (dictLookup attrs "uuid" = some u → serializeValue (.obj attrs) = u) ∧
    (dictLookup attrs "uuid" = Option.none → dictLookup attrs "id" = some i →
      serializeValue (.obj attrs) = i) ∧
    (dictLookup attrs "uuid" = Option.none → dictLookup attrs "id" = Option.none →
      dictLookup attrs "key" = some k → serializeValue (.obj attrs) = k) ∧
    (dictLookup attrs "uuid" = some u →
      serializeValue (.list (.obj attrs :: xs)) = .list (u :: serializeValueList xs)) ∧
    (buildParams [("contact", .obj [("uuid", .str "X")])] = [("contact", .str "X")]) := by
  refine ⟨fun h => ?_, fun h h2 => ?_, fun h h2 h3 => ?_, fun h => ?_, rfl⟩
  · simp [serializeValue, h]
  · simp [serializeValue, h, h2]
  · simp [serializeValue, h, h2, h3]
  · simp [serializeValue, serializeValueList, h]

/-- C9, witness: resolution at concrete objects exposing `uuid`, only
`id`, and only `key`. -/
theorem c9_identifier_resolution_witness :
    serializeValue (.obj [("uuid", .str "X")]) = .str "X" ∧
    serializeValue (.obj [("id", .int 3)]) = .int 3 ∧
    serializeValue (.obj [("key", .str "age")]) = .str "age" :=
  ⟨(c9_identifier_resolution [("uuid", .str "X")] (.str "X") .none .none []).1 rfl,
   (c9_identifier_resolution [("id", .int 3)] .none (.int 3) .none []).2.1 rfl rfl,
   (c9_identifier_resolution [("key", .str "age")] .none .none (.str "age") []).2.2.1
      rfl rfl rfl⟩

-- ==========================================================================
-- C10 : IntegerField's exact type check rejects booleans
-- ==========================================================================

/-- C10: `IntegerField.deserialize` checks `type(value) not in (int,)`, an
exact type check, so both Python booleans are rejected with a
Serialization error even though `bool` subclasses `int`; every other
non-null value whose exact type is not `int` is likewise rejected, while
genuine ints and null pass through unchanged. -/
theorem c10_integer_exact_type (b : Bool) (n : Int) (v : PyVal) (hv : v ≠ .none)
    (hint : ∀ m : Int, v ≠ .int m) :
    (fieldDeserialize { kind := .integer } (.bool b) =
      .error (.serializationError ("Value '" ++ (if b then "True" else "False") ++
        "' field is not an integer"))) ∧
    (fieldDeserialize { kind := .integer } (.int n) = .ok (.int n)) ∧
    (fieldDeserialize { kind := .integer } .none = .ok .none) ∧
    (∃ msg, fieldDeserialize { kind := .integer } v = .error (.serializationError msg)) := by
  refine ⟨by cases b <;> rfl, rfl, rfl, ?_⟩
  cases v with
  | none => exact absurd rfl hv
  | int m => exact absurd rfl (hint m)
  | bool c => exact ⟨_, rfl⟩
  | str s => exact ⟨_, rfl⟩
  | datetime d => exact ⟨_, rfl⟩
  | list xs => exact ⟨_, rfl⟩
  | dict kvs => exact ⟨_, rfl⟩
  | obj a => exact ⟨_, rfl⟩

-- ==========================================================================
-- C4 : round-trip of serialize/deserialize
-- ==========================================================================

/-- C4, counterexample: `"2013-02-27T04:05:06Z"` is a well-formed non-null
wire value for the Datetime variant (it deserializes fine), but
`serialize(deserialize(raw))` re-renders it with microseconds —
`"2013-02-27T04:05:06.000000Z"` — so `serialize(deserialize(raw)) ≠ raw`. -/
theorem c4_round_trip_counterexample :
    (fieldDeserialize { kind := .datetime } (.str "2013-02-27T04:05:06Z")).bind
      (fieldSerialize { kind := .datetime }) =
      .ok (.str "2013-02-27T04:05:06.000000Z") ∧
    ("2013-02-27T04:05:06.000000Z" : String) ≠ "2013-02-27T04:05:06Z" := by
  constructor
  · rfl
  · decide

/-- C4, amended: `deserialize(serialize(x)) == x` holds for every variant
on well-formed non-null domain values of the matching type (for Datetime:
valid timezone-aware values, year at least 1000; for the Object/ObjectList/
ObjectDict variants: values whose nested item class round-trips); in the
other direction `serialize(deserialize(raw)) == raw` holds for the Simple,
Boolean, Integer and Object-family variants, and for the Datetime variant
exactly on canonical wire values (`%Y-%m-%dT%H:%M:%S.%fZ`) — non-canonical
but well-formed datetime strings re-serialize to the canonical UTC form. -/
theorem c4_round_trip_amended :
    (∀ v : PyVal,
      (fieldSerialize { kind := .simple } v).bind (fieldDeserialize { kind := .simple }) =
        .ok v ∧
      (fieldDeserialize { kind := .simple } v).bind (fieldSerialize { kind := .simple }) =
        .ok v) ∧
    (∀ b : Bool,
      (fieldSerialize { kind := .boolean } (.bool b)).bind
        (fieldDeserialize { kind := .boolean }) = .ok (.bool b) ∧
      (fieldDeserialize { kind := .boolean } (.bool b)).bind
        (fieldSerialize { kind := .boolean }) = .ok (.bool b)) ∧
    (∀ n : Int,
      (fieldSerialize { kind := .integer } (.int n)).bind
        (fieldDeserialize { kind := .integer }) = .ok (.int n) ∧
      (fieldDeserialize { kind := .integer } (.int n)).bind
        (fieldSerialize { kind := .integer }) = .ok (.int n)) ∧
    (∀ d : DateTime, validDateTime d → 1000 ≤ d.year →
      (fieldSerialize { kind := .datetime } (.datetime d)).bind
        (fieldDeserialize { kind := .datetime }) = .ok (.datetime d) ∧
      (fieldDeserialize { kind := .datetime } (.str (formatIso8601Str d))).bind
        (fieldSerialize { kind := .datetime }) = .ok (.str (formatIso8601Str d))) ∧
    (∀ (item : ItemClass) (x w : PyVal), x ≠ .none → w ≠ .none →
      item.serializeItem x = .ok w → item.deserializeItem w = .ok x →
      (fieldSerialize { kind := .object item } x).bind
        (fieldDeserialize { kind := .object item }) = .ok x ∧
      (fieldDeserialize { kind := .object item } w).bind
        (fieldSerialize { kind := .object item }) = .ok w) ∧
    (∀ (item : ItemClass) (xs ws : List PyVal),
      serializeListWith item xs = .ok ws → deserializeListWith item ws = .ok xs →
      (fieldSerialize { kind := .objectList item } (.list xs)).bind
        (fieldDeserialize { kind := .objectList item }) = .ok (.list xs) ∧
      (fieldDeserialize { kind := .objectList item } (.list ws)).bind
        (fieldSerialize { kind := .objectList item }) = .ok (.list ws)) ∧
    (∀ (item : ItemClass) (kvs wvs : List (String × PyVal)),
      serializeDictWith item kvs = .ok wvs → deserializeDictWith item wvs = .ok kvs →
      (fieldSerialize { kind := .objectDict item } (.dict kvs)).bind
        (fieldDeserialize { kind := .objectDict item }) = .ok (.dict kvs) ∧
      (fieldDeserialize { kind := .objectDict item } (.dict wvs)).bind
        (fieldSerialize { kind := .objectDict item }) = .ok (.dict wvs)) := by
  refine ⟨fun v => ⟨rfl, rfl⟩, fun b => ⟨rfl, rfl⟩, fun n => ⟨rfl, rfl⟩,
    fun d hv hy => ?_, fun item x w hx hw hs hd => ?_, fun item xs ws hs hd => ?_,
    fun item kvs wvs hs hd => ?_⟩
  · have hser : fieldSerialize { kind := .datetime } (.datetime d) =
        .ok (.str (formatIso8601Str d)) := rfl
    have hdes : fieldDeserialize { kind := .datetime } (.str (formatIso8601Str d)) =
        .ok (.datetime d) := by
      have := parse_iso8601_isoChars d true true hv (fun hcon => Bool.noConfusion hcon)
      simpa [fieldDeserialize, formatIso8601Str, formatIso8601Chars] using this
    constructor
    · rw [hser]
      simpa [Except.bind] using hdes
    · rw [hdes]
      simpa [Except.bind] using hser
  · constructor
    · have hser : fieldSerialize { kind := .object item } x = .ok w := by
        cases x <;> simp_all [fieldSerialize, ObjectField.serialize]
      rw [hser]
      cases w <;> simp_all [Except.bind, fieldDeserialize, ObjectField.deserialize]
    · have hdes : fieldDeserialize { kind := .object item } w = .ok x := by
        cases w <;> simp_all [fieldDeserialize, ObjectField.deserialize]
      rw [hdes]
      cases x <;> simp_all [Except.bind, fieldSerialize, ObjectField.serialize]
  · constructor
    · simp [fieldSerialize, fieldDeserialize, ObjectListField.serialize,
        ObjectListField.deserialize, hs, hd, Except.bind, Except.map]
    · simp [fieldSerialize, fieldDeserialize, ObjectListField.serialize,
        ObjectListField.deserialize, hs, hd, Except.bind, Except.map]
  · constructor
    · simp [fieldSerialize, fieldDeserialize, ObjectDictField.serialize,
        ObjectDictField.deserialize, hs, hd, Except.bind, Except.map]
    · simp [fieldSerialize, fieldDeserialize, ObjectDictField.serialize,
        ObjectDictField.deserialize, hs, hd, Except.bind, Except.map]

/-- C4, witness: the round trip at the concrete datetime
2014-01-02 03:04:05.000006 UTC and at a concrete nested object (the test
fixture type with `zed = "b"`). -/
theorem c4_round_trip_amended_witness :
    (fieldSerialize { kind := .datetime } (.datetime ⟨2014, 1, 2, 3, 4, 5, 6⟩)).bind
      (fieldDeserialize { kind := .datetime }) =
      .ok (.datetime ⟨2014, 1, 2, 3, 4, 5, 6⟩) ∧
    (fieldSerialize { kind := .objectList testSubType }
        (.list [.obj [("zed", .str "b")]])).bind
      (fieldDeserialize { kind := .objectList testSubType }) =
      .ok (.list [.obj [("zed", .str "b")]]) :=
  ⟨(c4_round_trip_amended.2.2.2.1 ⟨2014, 1, 2, 3, 4, 5, 6⟩ (by decide) (by decide)).1,
   (c4_round_trip_amended.2.2.2.2.2.1 testSubType [.obj [("zed", .str "b")]]
      [.dict [("zed", .str "b")]] rfl rfl).1⟩

-- ==========================================================================
-- C5 : ISO-8601 datetime parsing
-- ==========================================================================

/-- C5, counterexample: a numeric UTC offset is NOT supported —
`parse_iso8601` selects a `strptime` format with no offset directive, so
`"2014-01-02T03:04:05+00:00"` leaves unconverted data and raises instead
of parsing to a UTC instant. -/
theorem c5_offset_counterexample :
    fieldDeserialize { kind := .datetime } (.str "2014-01-02T03:04:05+00:00") =
      .error (.valueError
        "time data 2014-01-02T03:04:05+00:00 does not match format") := rfl

/-- C5, amended: `DatetimeField.deserialize` parses ISO-8601 datetime
strings with or without fractional seconds and with either a `'Z'` suffix
or no offset marker at all (the naive form, taken as UTC) into the
UTC-normalized instant; null and the empty string deserialize to null;
numeric UTC offsets are not supported and raise a parse error. -/
theorem c5_datetime_parse_amended (d : DateTime) (hv : validDateTime d)
    (hy : 1000 ≤ d.year) :
    (fieldDeserialize { kind := .datetime } (.str ⟨isoChars d true true⟩) =
      .ok (.datetime d)) ∧
    (fieldDeserialize { kind := .datetime } (.str ⟨isoChars d true false⟩) =
      .ok (.datetime d)) ∧
    (d.microsecond = 0 →
      fieldDeserialize { kind := .datetime } (.str ⟨isoChars d false true⟩) =
        .ok (.datetime d)) ∧
    (d.microsecond = 0 →
      fieldDeserialize { kind := .datetime } (.str ⟨isoChars d false false⟩) =
        .ok (.datetime d)) ∧
    (fieldDeserialize { kind := .datetime } .none = .ok .none) ∧
    (fieldDeserialize { kind := .datetime } (.str "") = .ok .none) := by
  refine ⟨?_, ?_, fun hus => ?_, fun hus => ?_, rfl, rfl⟩
  · simpa [fieldDeserialize] using
      parse_iso8601_isoChars d true true hv (fun hcon => Bool.noConfusion hcon)
  · simpa [fieldDeserialize] using
      parse_iso8601_isoChars d true false hv (fun hcon => Bool.noConfusion hcon)
  · simpa [fieldDeserialize] using parse_iso8601_isoChars d false true hv (fun _ => hus)
  · simpa [fieldDeserialize] using parse_iso8601_isoChars d false false hv (fun _ => hus)

/-- C5, witness: the four accepted shapes at the concrete instants
2014-01-02 03:04:05.000006 UTC (fractional) and 2014-01-02 03:04:05 UTC
(no fraction), spelled as string literals. -/
theorem c5_datetime_parse_amended_witness :
    fieldDeserialize { kind := .datetime } (.str "2014-01-02T03:04:05.000006Z") =
      .ok (.datetime ⟨2014, 1, 2, 3, 4, 5, 6⟩) ∧
    fieldDeserialize { kind := .datetime } (.str "2014-01-02T03:04:05.000006") =
      .ok (.datetime ⟨2014, 1, 2, 3, 4, 5, 6⟩) ∧
    fieldDeserialize { kind := .datetime } (.str "2014-01-02T03:04:05Z") =
      .ok (.datetime ⟨2014, 1, 2, 3, 4, 5, 0⟩) ∧
    fieldDeserialize { kind := .datetime } (.str "2014-01-02T03:04:05") =
      .ok (.datetime ⟨2014, 1, 2, 3, 4, 5, 0⟩) := by
  have h1 := c5_datetime_parse_amended ⟨2014, 1, 2, 3, 4, 5, 6⟩ (by decide) (by decide)
  have h2 := c5_datetime_parse_amended ⟨2014, 1, 2, 3, 4, 5, 0⟩ (by decide) (by decide)
  refine ⟨?_, ?_, ?_, ?_⟩
  · have := h1.1
    rwa [show (⟨isoChars ⟨2014, 1, 2, 3, 4, 5, 6⟩ true true⟩ : String) =
      "2014-01-02T03:04:05.000006Z" by decide] at this
  · have := h1.2.1
    rwa [show (⟨isoChars ⟨2014, 1, 2, 3, 4, 5, 6⟩ true false⟩ : String) =
      "2014-01-02T03:04:05.000006" by decide] at this
  · have := h2.2.2.1 rfl
    rwa [show (⟨isoChars ⟨2014, 1, 2, 3, 4, 5, 0⟩ false true⟩ : String) =
      "2014-01-02T03:04:05Z" by decide] at this
  · have := h2.2.2.2.1 rfl
    rwa [show (⟨isoChars ⟨2014, 1, 2, 3, 4, 5, 0⟩ false false⟩ : String) =
      "2014-01-02T03:04:05" by decide] at this

/-- C10, witness: the statement at `True`, the int 3, and the string
`"x"`. -/
theorem c10_integer_exact_type_witness :
    fieldDeserialize { kind := .integer } (.bool true) =
      .error (.serializationError "Value 'True' field is not an integer") ∧
    fieldDeserialize { kind := .integer } (.int 3) = .ok (.int 3) := by
  have h := c10_integer_exact_type true 3 (.str "x")
    (fun hc => PyVal.noConfusion hc) (fun m hc => PyVal.noConfusion hc)
  exact ⟨h.1, h.2.1⟩

end Temba
